import Mathlib

/-!
# Thermal drivers of the i.MX8 boot loader: `nxp_tmu.c` and `imx_sc_thermal.c`

A shallow embedding of the two thermal drivers under `drivers/thermal`:

* the threshold loop `get_temp` of both drivers, over an explicit hardware
  input (the values the sensor register / the system controller will deliver)
  and an explicit trace of observable actions;
* the calibration loader and the monitoring-site enable sequence of the
  memory-mapped TMU, over an explicit register block with a write log;
* the configuration resolution `ofdata_to_platdata` of both drivers, over a
  plain view of the device-tree node.

C `int` values are `Int`; 32-bit register values are `Nat` reduced modulo
`2 ^ 32` wherever they are stored.
-/

namespace Thermal

/-! ## Constants -/

/-- Modelled from the spec: `errno.h` is not among the sources. `EIO` is the
I/O failure kind, with its usual value. -/
def EIO : Int := 5
/-- Modelled from the spec: `errno.h` is not among the sources. `EFAULT` is the
configuration-mismatch kind, with its usual value. -/
def EFAULT : Int := 14
/-- Modelled from the spec: `errno.h` is not among the sources. `ENODEV` is
returned for missing and for malformed calibration data, with its usual
value. -/
def ENODEV : Int := 19
/-- Modelled from the spec: `errno.h` is not among the sources. `EINVAL` is the
invalid-argument kind, with its usual value. -/
def EINVAL : Int := 22

/-- Number of monitoring sites, `SITES_MAX`. -/
def SITES_MAX : Nat := 16
/-- Mode register value with monitoring off, `TMR_DISABLE`. -/
def TMR_DISABLE : Nat := 0x0
/-- Global monitoring enable bit of the mode register, `TMR_ME`. -/
def TMR_ME : Nat := 0x80000000
/-- Averaging low-pass filter field of the mode register, `TMR_ALPF`. -/
def TMR_ALPF : Nat := 0x0c000000
/-- Measurement interval programmed at initialisation, `TMTMIR_DEFAULT`. -/
def TMTMIR_DEFAULT : Nat := 0x00000002
/-- Interrupt enable register value with all interrupts off, `TIER_DISABLE`. -/
def TIER_DISABLE : Nat := 0x0

/-- Reduction of a value to an unsigned 32-bit word. -/
def u32 (v : Nat) : Nat := v % 2 ^ 32

/-- Reading of the low `w` bits of an integer as a signed `w`-bit value
(`int16_t` for `w = 16`, `int8_t` for `w = 8`). -/
def sint (w : Nat) (x : Int) : Int :=
  (x + 2 ^ (w - 1)) % 2 ^ w - 2 ^ (w - 1)

/-! ## Observable actions and results of `get_temp` -/

/-- Observable actions of a `get_temp` call, in program order. -/
inductive Event where
  /-- A call of `read_temperature` that returned 0 and stored `cpu_tmp`. -/
  | read (cpu_tmp : Int)
  /-- A call of `read_temperature` that returned the non-zero code `ret`. -/
  | read_fail (ret : Int)
  /-- The "Critical temperature hit" message. -/
  | printf_critical
  /-- A call of `mx8_snvs_poweroff`, with the value it writes to `SNVS_LPCR`. -/
  | poweroff (lpcr : Nat)
  /-- The "has exceeded alert" warning, with its three arguments. -/
  | printf_alert (cpu_tmp alert critical : Int)
  /-- A call of `mdelay` with the given `int` argument, in milliseconds. -/
  | mdelay (ms : Int)
  deriving DecidableEq, Repr

/-- How a `get_temp` call ends. -/
inductive Outcome where
  /-- The function returned `ret`; `temp` is the value stored through the
  output pointer, `none` when nothing was stored. -/
  | returned (ret : Int) (temp : Option Int)
  /-- The PMIC pulled power after `mx8_snvs_poweroff`: execution stopped. -/
  | power_lost
  /-- The call is still waiting: the hardware input is used up. -/
  | blocked
  deriving DecidableEq, Repr

/-- Result of running `get_temp`: how it ended and what it did. -/
structure Run where
  outcome : Outcome
  trace : List Event
  deriving DecidableEq, Repr

/-- The run `r` preceded by the actions `evs`. -/
def Run.after (evs : List Event) (r : Run) : Run :=
  { r with trace := evs ++ r.trace }

/-- Samples delivered by the successful `read_temperature` calls of a trace. -/
def reads : List Event → List Int
  | [] => []
  | Event.read s :: t => s :: reads t
  | _ :: t => reads t

/-- Arguments of the `mdelay` calls of a trace. -/
def sleeps : List Event → List Int
  | [] => []
  | Event.mdelay ms :: t => ms :: sleeps t
  | _ :: t => sleeps t

/-- Number of `mx8_snvs_poweroff` calls of a trace. -/
def poweroffs : List Event → Nat
  | [] => 0
  | Event.poweroff _ :: t => poweroffs t + 1
  | _ :: t => poweroffs t

/-- Number of warning messages (alert or critical) of a trace. -/
def warnings : List Event → Nat
  | [] => 0
  | Event.printf_alert _ _ _ :: t => warnings t + 1
  | Event.printf_critical :: t => warnings t + 1
  | _ :: t => warnings t

/-! ## Memory-mapped TMU: `nxp_tmu_get_temp` -/

/-- Platform data of one TMU device, `struct nxp_tmu_plat`. The register
block pointer `regs` is its address, 0 for a null pointer. -/
structure nxp_tmu_plat where
  critical : Int
  alert : Int
  polling_delay : Int
  id : Int
  zone_node : Bool
  regs : Nat
  deriving DecidableEq, Repr

/-- Hardware seen by `nxp_tmu_get_temp`: `tritsr` lists the values that the
successive reads of `site[id].tritsr` deliver, `snvs_lpcr` is the content of
the register `SNVS_LPCR`, `pmic_cuts` tells whether the PMIC pulls power once
`mx8_snvs_poweroff` has written that register. -/
structure tmu_hw where
  tritsr : List Nat
  snvs_lpcr : Nat
  pmic_cuts : Bool
  deriving DecidableEq, Repr

/-- `mx8_snvs_poweroff`: the value written to `SNVS_LPCR`, which is the value
read from it with the bits `TOP` and `DP_EN` (`0x60`) set. -/
def mx8_snvs_poweroff (lpcr : Nat) : Nat :=
  u32 lpcr ||| 0x60

/-- `read_temperature` of `nxp_tmu.c`: reads the site register until bit 31
(valid) is set, then yields the return code 0, the sample
`(val & 0xff) * 1000` and the values not yet consumed. `none` when the valid
bit never shows up in the input. -/
def nxp_read_temperature : List Nat → Option (Int × Int × List Nat)
  | [] => none
  | val :: rest =>
    if u32 val &&& 0x80000000 = 0 then nxp_read_temperature rest
    else some (0, ((u32 val &&& 0xff) * 1000 : Nat), rest)

/-- The `while (cpu_tmp >= pdata->alert)` loop of `nxp_tmu_get_temp`, entered
with the current sample `cpu_tmp` and the content `lpcr` of `SNVS_LPCR`. One
unit of `fuel` per iteration. When the sample has reached `critical` the
message is printed and `mx8_snvs_poweroff` is called; execution goes on to the
alert warning only when the PMIC has not pulled power. -/
def nxp_tmu_get_temp_loop (pdata : nxp_tmu_plat) (pmic_cuts : Bool) :
    Nat → Int → Nat → List Nat → Run
  | 0, _, _, _ => ⟨Outcome.blocked, []⟩
  | fuel + 1, cpu_tmp, lpcr, hw =>
    if cpu_tmp ≥ pdata.alert then
      let shutdown : List Event :=
        if cpu_tmp ≥ pdata.critical then
          [Event.printf_critical, Event.poweroff (mx8_snvs_poweroff lpcr)]
        else []
      let lpcr : Nat := if cpu_tmp ≥ pdata.critical then mx8_snvs_poweroff lpcr else lpcr
      if cpu_tmp ≥ pdata.critical ∧ pmic_cuts = true then ⟨Outcome.power_lost, shutdown⟩
      else
        Run.after
          (shutdown ++ [Event.printf_alert cpu_tmp pdata.alert pdata.critical,
                        Event.mdelay pdata.polling_delay])
          (match nxp_read_temperature hw with
           | none => ⟨Outcome.blocked, []⟩
           | some (ret, tmp, hw') =>
             if ret ≠ 0 then ⟨Outcome.returned ret none, [Event.read_fail ret]⟩
             else Run.after [Event.read tmp]
                    (nxp_tmu_get_temp_loop pdata pmic_cuts fuel tmp lpcr hw'))
    else ⟨Outcome.returned 0 (some (cpu_tmp.tdiv 1000)), []⟩

/-- `nxp_tmu_get_temp`: a first `read_temperature`, then the threshold loop.
Every iteration consumes at least one input value, so the fuel given here is
never used up. -/
def nxp_tmu_get_temp (pdata : nxp_tmu_plat) (hw : tmu_hw) : Run :=
  match nxp_read_temperature hw.tritsr with
  | none => ⟨Outcome.blocked, []⟩
  | some (ret, tmp, hw') =>
    if ret ≠ 0 then ⟨Outcome.returned ret none, [Event.read_fail ret]⟩
    else Run.after [Event.read tmp]
           (nxp_tmu_get_temp_loop pdata hw.pmic_cuts (hw'.length + 1) tmp hw.snvs_lpcr hw')

/-- Samples that the successive `read_temperature` calls obtain from a
sequence of site register values: one per value with the valid bit set. -/
def nxp_samples : List Nat → List Int
  | [] => []
  | val :: rest =>
    if u32 val &&& 0x80000000 = 0 then nxp_samples rest
    else (((u32 val &&& 0xff) * 1000 : Nat) : Int) :: nxp_samples rest

/-! ## Controller-mediated sensor: `imx_sc_thermal_get_temp` -/

/-- Platform data of one controller-mediated sensor,
`struct imx_sc_thermal_plat`. -/
structure imx_sc_thermal_plat where
  critical : Int
  alert : Int
  polling_delay : Int
  id : Int
  zone_node : Bool
  deriving DecidableEq, Repr

/-- Answer of the system controller to one `sc_misc_get_temp` request: the
status code and the two output values. -/
structure sc_reply where
  err : Int
  celsius : Int
  tenths : Int
  deriving DecidableEq, Repr

/-- Sample computed from a successful answer: `celsius * 1000 + tenths`, with
`celsius` an `int16_t` and `tenths` an `int8_t`. -/
def sc_sample (r : sc_reply) : Int :=
  sint 16 r.celsius * 1000 + sint 8 r.tenths

/-- `read_temperature` of `imx_sc_thermal.c`. `temp` is the output pointer:
`none` for a null pointer, `some v` for a cell holding `v`. Yields the return
code, the cell afterwards and the answers not yet consumed. `none` when the
controller never answers. -/
def imx_read_temperature (temp : Option Int) (hw : List sc_reply) :
    Option (Int × Option Int × List sc_reply) :=
  match temp with
  | none => some (-EINVAL, none, hw)
  | some cur =>
    match hw with
    | [] => none
    | r :: rest =>
      if r.err ≠ 0 then some (- EIO, some cur, rest)
      else some (0, some (sc_sample r), rest)

/-- The `while (cpu_tmp >= pdata->alert)` loop of `imx_sc_thermal_get_temp`,
entered with the current sample `cpu_tmp`. One unit of `fuel` per iteration.
The loop compares with `alert` only. -/
def imx_sc_thermal_get_temp_loop (pdata : imx_sc_thermal_plat) :
    Nat → Int → List sc_reply → Run
  | 0, _, _ => ⟨Outcome.blocked, []⟩
  | fuel + 1, cpu_tmp, hw =>
    if cpu_tmp ≥ pdata.alert then
      Run.after
        [Event.printf_alert cpu_tmp pdata.alert pdata.critical,
         Event.mdelay pdata.polling_delay]
        (match imx_read_temperature (some cpu_tmp) hw with
         | none => ⟨Outcome.blocked, []⟩
         | some (ret, tmp, hw') =>
           if ret ≠ 0 then ⟨Outcome.returned ret none, [Event.read_fail ret]⟩
           else Run.after [Event.read (tmp.getD cpu_tmp)]
                  (imx_sc_thermal_get_temp_loop pdata fuel (tmp.getD cpu_tmp) hw'))
    else ⟨Outcome.returned 0 (some (cpu_tmp.tdiv 1000)), []⟩

/-- `imx_sc_thermal_get_temp`: a first `read_temperature` into `cpu_tmp = 0`,
then the threshold loop. Every iteration consumes one answer, so the fuel
given here is never used up. -/
def imx_sc_thermal_get_temp (pdata : imx_sc_thermal_plat) (hw : List sc_reply) : Run :=
  match imx_read_temperature (some 0) hw with
  | none => ⟨Outcome.blocked, []⟩
  | some (ret, tmp, hw') =>
    if ret ≠ 0 then ⟨Outcome.returned ret none, [Event.read_fail ret]⟩
    else Run.after [Event.read (tmp.getD 0)]
           (imx_sc_thermal_get_temp_loop pdata (hw'.length + 1) (tmp.getD 0) hw')

/-- Trace of the rounds spent in the alert state on the samples `ss`: each
sample is read, reported, and followed by one `mdelay`. -/
def alert_rounds (alert critical delay : Int) : List Int → List Event
  | [] => []
  | x :: xs =>
    Event.read x :: Event.printf_alert x alert critical :: Event.mdelay delay ::
      alert_rounds alert critical delay xs

/-- Number of `mx8_snvs_poweroff` calls of a trace before its first
`read_temperature` call. -/
def poweroffs_upto_read : List Event → Nat
  | [] => 0
  | Event.read _ :: _ => 0
  | Event.poweroff _ :: t => poweroffs_upto_read t + 1
  | _ :: t => poweroffs_upto_read t

/-- Every sample read in a trace, paired with the number of
`mx8_snvs_poweroff` calls made on it, that is between its reading and the
next `read_temperature` call. -/
def served : List Event → List (Int × Nat)
  | [] => []
  | Event.read s :: t => (s, poweroffs_upto_read t) :: served t
  | _ :: t => served t

/-! ## Memory-mapped TMU: register block, calibration and site enable -/

/-- Registers of one monitoring site, `struct nxp_tmu_site_regs`. -/
structure nxp_tmu_site_regs where
  tritsr : Nat
  tratsr : Nat
  deriving DecidableEq, Repr

/-- The TMU register block, `struct nxp_tmu_regs` (reserved gaps left out).
The site registers are driven by the hardware and never written by the
driver; what `read_temperature` finds in them is the input `tmu_hw.tritsr`. -/
structure nxp_tmu_regs where
  tmr : Nat
  tsr : Nat
  tmtmir : Nat
  tier : Nat
  tidr : Nat
  tiscr : Nat
  ticscr : Nat
  tmhtcrh : Nat
  tmhtcrl : Nat
  tmhtitr : Nat
  tmhtatr : Nat
  tmhtactr : Nat
  ttcfgr : Nat
  tscfgr : Nat
  site : List nxp_tmu_site_regs
  ipbrr0 : Nat
  ipbrr1 : Nat
  ttr0cr : Nat
  ttr1cr : Nat
  ttr2cr : Nat
  ttr3cr : Nat
  deriving DecidableEq, Repr

/-- The registers of the block that the driver writes. -/
inductive tmu_reg where
  | tmr | tmtmir | tier | ttcfgr | tscfgr | ttr0cr | ttr1cr | ttr2cr | ttr3cr
  deriving DecidableEq, Repr

/-- The register block together with the log of all `writel` calls made on it,
in program order. -/
structure tmu_io where
  regs : nxp_tmu_regs
  writes : List (tmu_reg × Nat)
  deriving DecidableEq, Repr

/-- Storing of a word in one register of the block. -/
def nxp_tmu_regs.store (regs : nxp_tmu_regs) (r : tmu_reg) (v : Nat) : nxp_tmu_regs :=
  match r with
  | tmu_reg.tmr => { regs with tmr := v }
  | tmu_reg.tmtmir => { regs with tmtmir := v }
  | tmu_reg.tier => { regs with tier := v }
  | tmu_reg.ttcfgr => { regs with ttcfgr := v }
  | tmu_reg.tscfgr => { regs with tscfgr := v }
  | tmu_reg.ttr0cr => { regs with ttr0cr := v }
  | tmu_reg.ttr1cr => { regs with ttr1cr := v }
  | tmu_reg.ttr2cr => { regs with ttr2cr := v }
  | tmu_reg.ttr3cr => { regs with ttr3cr := v }

/-- Modelled from the spec: the register primitives of `asm/io.h` are not
among the sources. `writel(val, &regs->r)` stores the 32-bit value in the
register, where a later `readl` finds it, and the write is logged. -/
def writel (val : Nat) (r : tmu_reg) (io : tmu_io) : tmu_io :=
  { regs := io.regs.store r (u32 val), writes := io.writes ++ [(r, u32 val)] }

/-- Modelled from the spec: `fdt32_to_cpu` is not among the sources. The
32-bit word held by the four bytes of a device-tree cell, which are stored
big-endian. -/
def fdt32_to_cpu (b0 b1 b2 b3 : Nat) : Nat :=
  (b0 % 256) * 2 ^ 24 + (b1 % 256) * 2 ^ 16 + (b2 % 256) * 2 ^ 8 + b3 % 256

/-- What the device tree gives `nxp_tmu_calibration`: `range_ret` and `range`
are the return value of `fdtdec_get_int_array` for `"fsl,tmu-range"` and the
four words it stored; `calibration` holds the bytes of the property
`"fsl,tmu-calibration"`, `none` when `fdt_getprop` finds none. -/
structure tmu_calibration_cfg where
  range_ret : Int
  range : Nat × Nat × Nat × Nat
  calibration : Option (List Nat)
  deriving DecidableEq, Repr

/-- The `for (i = 0; i < len; i += 8, calibration += 2)` loop of
`nxp_tmu_calibration` over the bytes of the table: two cells per round, the
first to `ttcfgr`, the second to `tscfgr`. It is entered only with a length
that is a multiple of 8. -/
def nxp_tmu_calibration_loop : List Nat → tmu_io → tmu_io
  | b0 :: b1 :: b2 :: b3 :: b4 :: b5 :: b6 :: b7 :: rest, io =>
    nxp_tmu_calibration_loop rest
      (writel (fdt32_to_cpu b4 b5 b6 b7) tmu_reg.tscfgr
        (writel (fdt32_to_cpu b0 b1 b2 b3) tmu_reg.ttcfgr io))
  | _, io => io

/-- `nxp_tmu_calibration`: return value and register block afterwards. -/
def nxp_tmu_calibration (cfg : tmu_calibration_cfg) (io : tmu_io) : Int × tmu_io :=
  if cfg.range_ret ≠ 0 then (cfg.range_ret, io)
  else
    let io := writel cfg.range.1 tmu_reg.ttr0cr io
    let io := writel cfg.range.2.1 tmu_reg.ttr1cr io
    let io := writel cfg.range.2.2.1 tmu_reg.ttr2cr io
    let io := writel cfg.range.2.2.2 tmu_reg.ttr3cr io
    match cfg.calibration with
    | none => (-ENODEV, io)
    | some bytes =>
      if bytes.length % 8 ≠ 0 then (-ENODEV, io)
      else (0, nxp_tmu_calibration_loop bytes io)

/-- `nxp_tmu_init`: monitoring off, interrupts off, measurement interval. -/
def nxp_tmu_init (io : tmu_io) : tmu_io :=
  writel TMTMIR_DEFAULT tmu_reg.tmtmir
    (writel TIER_DISABLE tmu_reg.tier
      (writel TMR_DISABLE tmu_reg.tmr io))

/-- The C expression `1 << n` on `int`, defined for `0 ≤ n < 31`. -/
def shl_one (n : Int) : Option Nat :=
  if 0 ≤ n ∧ n < 31 then some (2 ^ n.toNat) else none

/-- `nxp_tmu_enable_msite`: return value and register block afterwards; `none`
when the shift `1 << (15 - pdata->id)` is undefined. -/
def nxp_tmu_enable_msite (pdata : nxp_tmu_plat) (io : tmu_io) : Option (Int × tmu_io) :=
  if pdata.regs = 0 then some (- EIO, io)
  else
    let reg := u32 io.regs.tmr
    let reg := reg &&& (0xffffffff ^^^ TMR_ME)
    let io := writel reg tmu_reg.tmr io
    match shl_one (15 - pdata.id) with
    | none => none
    | some bit =>
      let reg := reg ||| bit
      let reg := reg ||| TMR_ALPF
      let io := writel reg tmu_reg.tmr io
      let reg := reg ||| TMR_ME
      let io := writel reg tmu_reg.tmr io
      some (0, io)

/-- The four bytes of a 32-bit word in big-endian order, as a device-tree cell
stores it. -/
def be32 (w : Nat) : List Nat :=
  [w / 2 ^ 24 % 256, w / 2 ^ 16 % 256, w / 2 ^ 8 % 256, w % 256]

/-- The bytes of a calibration table made of the given pairs of words. -/
def calibration_bytes : List (Nat × Nat) → List Nat
  | [] => []
  | (c, s) :: t => be32 c ++ be32 s ++ calibration_bytes t

/-- The writes that load a table of pairs: each pair goes to `ttcfgr` then to
`tscfgr`. -/
def calibration_writes : List (Nat × Nat) → List (tmu_reg × Nat)
  | [] => []
  | (c, s) :: t => (tmu_reg.ttcfgr, c) :: (tmu_reg.tscfgr, s) :: calibration_writes t

/-- The registers after loading a table of pairs into a block: each pair
overwrites `ttcfgr` and `tscfgr`. -/
def calibration_regs (regs : nxp_tmu_regs) (pairs : List (Nat × Nat)) : nxp_tmu_regs :=
  pairs.foldl (fun r p => { r with ttcfgr := p.1, tscfgr := p.2 }) regs

/-- A register block with every register at zero, sixteen sites. -/
def nxp_tmu_regs.zero : nxp_tmu_regs :=
  { tmr := 0, tsr := 0, tmtmir := 0, tier := 0, tidr := 0, tiscr := 0, ticscr := 0,
    tmhtcrh := 0, tmhtcrl := 0, tmhtitr := 0, tmhtatr := 0, tmhtactr := 0,
    ttcfgr := 0, tscfgr := 0, site := List.replicate SITES_MAX ⟨0, 0⟩,
    ipbrr0 := 0, ipbrr1 := 0, ttr0cr := 0, ttr1cr := 0, ttr2cr := 0, ttr3cr := 0 }

/-! ## Configuration resolution: `ofdata_to_platdata` -/

/-- Result of `fdtdec_parse_phandle_with_args`, `struct fdtdec_phandle_args`:
the node referred to, the number of argument cells and the first of them. -/
structure fdtdec_phandle_args where
  node : Int
  args_count : Int
  args0 : Nat
  deriving DecidableEq, Repr

/-- One subnode of `trips`: its `type` string when it has one, and the value
of its `temperature` cell when it has one. -/
structure trip_node where
  type : Option String
  temperature : Option Int
  deriving DecidableEq, Repr

/-- What the device tree gives `ofdata_to_platdata` for one device node:
`reg` is the address found by `fdtdec_get_addr`, `none` for `FDT_ADDR_T_NONE`;
`sensors_ret` and `sensors` are the return value and the result of
`fdtdec_parse_phandle_with_args` on `"thermal-sensors"`; `polling_delay` is the
`"polling-delay"` cell when present; `trips` lists the subnodes of the
`"trips"` subnode in order, `none` when the node has no such subnode. -/
structure thermal_node where
  reg : Option Nat
  sensors_ret : Int
  sensors : fdtdec_phandle_args
  polling_delay : Option Int
  trips : Option (List trip_node)
  deriving DecidableEq, Repr

/-- Modelled from the spec: `fdtdec_get_int` is not among the sources. The
value of the property when the node specifies it, else the default. -/
def fdtdec_get_int (prop : Option Int) (default_val : Int) : Int :=
  prop.getD default_val

/-- Body of the `fdt_for_each_subnode` loop over the trips, on the pair
`(critical, alert)`. -/
def trips_step (ca : Int × Int) (t : trip_node) : Int × Int :=
  match t.type with
  | none => ca
  | some type =>
    if type = "critical" then (fdtdec_get_int t.temperature 85, ca.2)
    else if type = "passive" then (ca.1, fdtdec_get_int t.temperature 80)
    else ca

/-- The `fdt_for_each_subnode` loop over the trips; no round without a
`"trips"` subnode. -/
def trips_scan (trips : Option (List trip_node)) (ca : Int × Int) : Int × Int :=
  (trips.getD []).foldl trips_step ca

/-- `nxp_tmu_ofdata_to_platdata`: return value and platform data afterwards.
`parent` and `parent_offset` are the platform data and the node offset of
`dev->parent`; `addr_none` is the pointer value of `FDT_ADDR_T_NONE`. -/
def nxp_tmu_ofdata_to_platdata (addr_none : Nat) (pdata parent : nxp_tmu_plat)
    (parent_offset : Int) (node : thermal_node) : Int × nxp_tmu_plat :=
  if pdata.zone_node then
    match node.reg with
    | none => (-EINVAL, { pdata with regs := addr_none })
    | some addr => (0, { pdata with regs := addr })
  else
    let pdata := if parent.zone_node then { pdata with regs := parent.regs } else pdata
    if node.sensors_ret ≠ 0 then (node.sensors_ret, pdata)
    else if node.sensors.node ≠ parent_offset then (-EFAULT, pdata)
    else
      let pdata :=
        if node.sensors.args_count ≥ 1 then
          { pdata with id := sint 32 (u32 node.sensors.args0) }
        else { pdata with id := 0 }
      let pdata := { pdata with polling_delay := fdtdec_get_int node.polling_delay 1000 }
      let ca := trips_scan node.trips (pdata.critical, pdata.alert)
      (0, { pdata with critical := ca.1, alert := ca.2 })

/-- `imx_sc_thermal_ofdata_to_platdata`: return value and platform data
afterwards. `parent_offset` is the node offset of `dev->parent`. -/
def imx_sc_thermal_ofdata_to_platdata (pdata : imx_sc_thermal_plat)
    (parent_offset : Int) (node : thermal_node) : Int × imx_sc_thermal_plat :=
  if pdata.zone_node then (0, pdata)
  else if node.sensors_ret ≠ 0 then (node.sensors_ret, pdata)
  else if node.sensors.node ≠ parent_offset then (-EFAULT, pdata)
  else
    let pdata :=
      if node.sensors.args_count ≥ 1 then
        { pdata with id := sint 32 (u32 node.sensors.args0) }
      else { pdata with id := 0 }
    let pdata := { pdata with polling_delay := fdtdec_get_int node.polling_delay 1000 }
    let ca := trips_scan node.trips (pdata.critical, pdata.alert)
    (0, { pdata with critical := ca.1, alert := ca.2 })

/-- A freshly allocated, zeroed `struct nxp_tmu_plat`. -/
def nxp_tmu_plat.zero : nxp_tmu_plat := ⟨0, 0, 0, 0, false, 0⟩

/-- A freshly allocated, zeroed `struct imx_sc_thermal_plat`. -/
def imx_sc_thermal_plat.zero : imx_sc_thermal_plat := ⟨0, 0, 0, 0, false⟩

/-! ## Lemmas on traces -/

theorem reads_append (a b : List Event) : reads (a ++ b) = reads a ++ reads b := by
  induction a with
  | nil => rfl
  | cons e t ih => cases e <;> simp [reads, ih]

theorem sleeps_append (a b : List Event) : sleeps (a ++ b) = sleeps a ++ sleeps b := by
  induction a with
  | nil => rfl
  | cons e t ih => cases e <;> simp [sleeps, ih]

theorem poweroffs_append (a b : List Event) :
    poweroffs (a ++ b) = poweroffs a + poweroffs b := by
  induction a with
  | nil => simp [poweroffs]
  | cons e t ih => cases e <;> simp [poweroffs, ih]; omega

theorem reads_alert_rounds (a c d : Int) (ss : List Int) :
    reads (alert_rounds a c d ss) = ss := by
  induction ss with
  | nil => rfl
  | cons x xs ih => simp [alert_rounds, reads, ih]

theorem sleeps_alert_rounds (a c d : Int) (ss : List Int) :
    sleeps (alert_rounds a c d ss) = List.replicate ss.length d := by
  induction ss with
  | nil => rfl
  | cons x xs ih => simp [alert_rounds, sleeps, ih, List.replicate_succ]

theorem poweroffs_alert_rounds (a c d : Int) (ss : List Int) :
    poweroffs (alert_rounds a c d ss) = 0 := by
  induction ss with
  | nil => rfl
  | cons x xs ih => simp [alert_rounds, poweroffs, ih]

/-! ## Lemmas on `nxp_tmu_get_temp` -/

/-- A `read_temperature` call on an input whose first sample is `x` returns 0
with `x` and leaves an input that holds the remaining samples. -/
theorem nxp_read_temperature_samples (hw : List Nat) (x : Int) (xs : List Int)
    (h : nxp_samples hw = x :: xs) :
    ∃ hw', nxp_read_temperature hw = some (0, x, hw') ∧ nxp_samples hw' = xs ∧
      hw'.length < hw.length := by
  induction hw with
  | nil => simp [nxp_samples] at h
  | cons v rest ih =>
    by_cases hv : u32 v &&& 0x80000000 = 0
    · simp only [nxp_samples, hv, if_true] at h
      obtain ⟨hw', h1, h2, h3⟩ := ih h
      refine ⟨hw', ?_, h2, ?_⟩
      · simp only [nxp_read_temperature, hv, if_true]; exact h1
      · simp only [List.length_cons]; omega
    · simp only [nxp_samples, hv, if_false] at h
      injection h with h1 h2
      refine ⟨rest, ?_, h2, ?_⟩
      · simp only [nxp_read_temperature, hv, if_false]; rw [h1]
      · simp

/-- Rounds of the loop of `nxp_tmu_get_temp` in the alert state: entered with
a sample in `[alert, critical)` and followed by the samples `xs` of the same
kind and then `s`, the loop warns, sleeps and reads `xs.length + 1` times and
goes on with `s`. -/
theorem nxp_loop_alert_rounds (pdata : nxp_tmu_plat) (pmic : Bool) (s : Int) (rest : List Int)
    (lpcr : Nat) (xs : List Int) : ∀ (cpu : Int) (hw : List Nat) (f : Nat),
    pdata.alert ≤ cpu → cpu < pdata.critical →
    (∀ x ∈ xs, pdata.alert ≤ x ∧ x < pdata.critical) →
    nxp_samples hw = xs ++ s :: rest →
    ∃ hw', nxp_samples hw' = rest ∧ hw'.length + xs.length + 1 ≤ hw.length ∧
      nxp_tmu_get_temp_loop pdata pmic (xs.length + 1 + f) cpu lpcr hw =
        Run.after
          (Event.printf_alert cpu pdata.alert pdata.critical ::
            Event.mdelay pdata.polling_delay ::
            (alert_rounds pdata.alert pdata.critical pdata.polling_delay xs ++ [Event.read s]))
          (nxp_tmu_get_temp_loop pdata pmic f s lpcr hw') := by
  induction xs with
  | nil =>
    intro cpu hw f ha hc _ hs
    obtain ⟨hw', h1, h2, h3⟩ := nxp_read_temperature_samples hw s rest (by simpa using hs)
    refine ⟨hw', h2, by simp; omega, ?_⟩
    have hnc : ¬ cpu ≥ pdata.critical := by omega
    simp only [List.length_nil, Nat.zero_add, Nat.add_comm 1 f, nxp_tmu_get_temp_loop, ha,
      ge_iff_le, if_true, hnc, false_and, if_false, h1, List.nil_append, alert_rounds]
    simp [Run.after]
  | cons y ys ih =>
    intro cpu hw f ha hc hall hs
    obtain ⟨hw1, h1, h2, h3⟩ :=
      nxp_read_temperature_samples hw y (ys ++ s :: rest) (by simpa using hs)
    have hy := hall y (by simp)
    obtain ⟨hw', g1, g2, g3⟩ :=
      ih y hw1 f hy.1 hy.2 (fun x hx => hall x (by simp [hx])) h2
    refine ⟨hw', g1, by simp; omega, ?_⟩
    have hnc : ¬ cpu ≥ pdata.critical := by omega
    have hf : (y :: ys).length + 1 + f = (ys.length + 1 + f) + 1 := by simp; omega
    rw [hf]
    simp only [nxp_tmu_get_temp_loop, ha, ge_iff_le, if_true, hnc, false_and, if_false, h1,
      List.nil_append, alert_rounds, g3]
    simp [Run.after]

theorem nxp_samples_length_le (hw : List Nat) : (nxp_samples hw).length ≤ hw.length := by
  induction hw with
  | nil => simp [nxp_samples]
  | cons v rest ih =>
    by_cases hv : u32 v &&& 0x80000000 = 0
    · simp only [nxp_samples, hv, if_true, List.length_cons]; omega
    · simp only [nxp_samples, hv, if_false, List.length_cons]; omega

/-- The part of `nxp_tmu_get_temp` spent in the alert state: with samples `ss`
in `[alert, critical)` followed by `s`, the call reads `ss.length + 1` times,
sleeps `ss.length` times and enters the loop test with `s`, fuel left. -/
theorem nxp_get_temp_alert_phase (pdata : nxp_tmu_plat) (hw : tmu_hw) (ss : List Int)
    (s : Int) (rest : List Int)
    (hs : nxp_samples hw.tritsr = ss ++ s :: rest)
    (hall : ∀ x ∈ ss, pdata.alert ≤ x ∧ x < pdata.critical) :
    ∃ hw' f, nxp_samples hw' = rest ∧ hw'.length < f ∧
      nxp_tmu_get_temp pdata hw =
        Run.after
          (alert_rounds pdata.alert pdata.critical pdata.polling_delay ss ++ [Event.read s])
          (nxp_tmu_get_temp_loop pdata hw.pmic_cuts f s hw.snvs_lpcr hw') := by
  cases ss with
  | nil =>
    obtain ⟨hw', h1, h2, _⟩ := nxp_read_temperature_samples hw.tritsr s rest (by simpa using hs)
    refine ⟨hw', hw'.length + 1, h2, by omega, ?_⟩
    simp [nxp_tmu_get_temp, h1, alert_rounds]
  | cons x xs =>
    obtain ⟨hw1, h1, h2, _⟩ :=
      nxp_read_temperature_samples hw.tritsr x (xs ++ s :: rest) (by simpa using hs)
    have hx := hall x (by simp)
    have hlen : xs.length + 1 + rest.length ≤ hw1.length := by
      have := nxp_samples_length_le hw1
      rw [h2] at this
      simp at this; omega
    obtain ⟨hw', g1, g2, g3⟩ :=
      nxp_loop_alert_rounds pdata hw.pmic_cuts s rest hw.snvs_lpcr xs x hw1
        (hw1.length - xs.length)
        hx.1 hx.2 (fun y hy => hall y (by simp [hy])) h2
    refine ⟨hw', hw1.length - xs.length, g1, by omega, ?_⟩
    have hf : hw1.length + 1 = xs.length + 1 + (hw1.length - xs.length) := by omega
    simp only [nxp_tmu_get_temp, h1, ne_eq, not_true_eq_false, if_false]
    rw [hf, g3]
    simp [Run.after, alert_rounds]

/-- Whatever the input, `read_temperature` of `nxp_tmu.c` returns 0 and
consumes at least one value. -/
theorem nxp_read_temperature_ret (hw : List Nat) (ret tmp : Int) (hw' : List Nat)
    (h : nxp_read_temperature hw = some (ret, tmp, hw')) :
    ret = 0 ∧ hw'.length < hw.length := by
  induction hw with
  | nil => simp [nxp_read_temperature] at h
  | cons v rest ih =>
    by_cases hv : u32 v &&& 0x80000000 = 0
    · simp only [nxp_read_temperature, hv, if_true] at h
      have := ih h
      simp only [List.length_cons]; omega
    · simp only [nxp_read_temperature, hv, if_false, Option.some.injEq, Prod.mk.injEq] at h
      obtain ⟨h1, _, h3⟩ := h
      subst h3
      exact ⟨h1.symm, by simp⟩

/-- The fuel of the loop of `nxp_tmu_get_temp` does not matter once it exceeds
the length of the input: the fuel given by `nxp_tmu_get_temp` is never used
up. -/
theorem nxp_loop_fuel (pdata : nxp_tmu_plat) (pmic : Bool) : ∀ (f g : Nat) (cpu : Int)
    (lpcr : Nat) (hw : List Nat), hw.length < f → hw.length < g →
    nxp_tmu_get_temp_loop pdata pmic f cpu lpcr hw =
      nxp_tmu_get_temp_loop pdata pmic g cpu lpcr hw := by
  intro f
  induction f with
  | zero => intro g cpu lpcr hw h; omega
  | succ f ih =>
    intro g cpu lpcr hw hf hg
    obtain ⟨g, rfl⟩ : ∃ g', g = g' + 1 := ⟨g - 1, by omega⟩
    cases hrd : nxp_read_temperature hw with
    | none => simp only [nxp_tmu_get_temp_loop, hrd]
    | some v =>
      obtain ⟨ret, tmp, hw'⟩ := v
      obtain ⟨_, hl⟩ := nxp_read_temperature_ret hw ret tmp hw' hrd
      simp only [nxp_tmu_get_temp_loop, hrd]
      rw [ih g tmp _ hw' (by omega) (by omega)]

/-- The loop of `nxp_tmu_get_temp` entered with a sample below `alert` returns
at once with the sample in whole degrees. -/
theorem nxp_loop_normal (pdata : nxp_tmu_plat) (pmic : Bool) (f : Nat) (s : Int) (lpcr : Nat)
    (hw : List Nat) (hf : 0 < f) (hs : s < pdata.alert) :
    nxp_tmu_get_temp_loop pdata pmic f s lpcr hw =
      ⟨Outcome.returned 0 (some (s.tdiv 1000)), []⟩ := by
  obtain ⟨g, rfl⟩ : ∃ g, f = g + 1 := ⟨f - 1, by omega⟩
  have : ¬ s ≥ pdata.alert := by omega
  simp only [nxp_tmu_get_temp_loop, this, if_false]

/-- The loop of `nxp_tmu_get_temp` entered with a sample that has reached both
thresholds prints the message, calls `mx8_snvs_poweroff`, and stops there when
the PMIC pulls power. -/
theorem nxp_loop_critical (pdata : nxp_tmu_plat) (f : Nat) (s : Int) (lpcr : Nat)
    (hw : List Nat) (hf : 0 < f) (ha : pdata.alert ≤ s) (hc : pdata.critical ≤ s) :
    nxp_tmu_get_temp_loop pdata true f s lpcr hw =
      ⟨Outcome.power_lost,
        [Event.printf_critical, Event.poweroff (mx8_snvs_poweroff lpcr)]⟩ := by
  obtain ⟨g, rfl⟩ : ∃ g, f = g + 1 := ⟨f - 1, by omega⟩
  simp only [nxp_tmu_get_temp_loop, ge_iff_le, ha, hc, if_true, and_self]

/-! ## Lemmas on `imx_sc_thermal_get_temp` -/

/-- Rounds of the loop of `imx_sc_thermal_get_temp`: entered with a sample at
or above `alert` and followed by successful answers `oks` of the same kind and
then the successful answer `r`, the loop warns, sleeps and reads
`oks.length + 1` times and goes on with the sample of `r`. -/
theorem imx_loop_alert_rounds (pdata : imx_sc_thermal_plat) (r : sc_reply) (rest : List sc_reply)
    (hr : r.err = 0) (oks : List sc_reply) : ∀ (cpu : Int) (f : Nat),
    pdata.alert ≤ cpu →
    (∀ x ∈ oks, x.err = 0 ∧ pdata.alert ≤ sc_sample x) →
      imx_sc_thermal_get_temp_loop pdata (oks.length + 1 + f) cpu (oks ++ r :: rest) =
        Run.after
          (Event.printf_alert cpu pdata.alert pdata.critical ::
            Event.mdelay pdata.polling_delay ::
            (alert_rounds pdata.alert pdata.critical pdata.polling_delay (oks.map sc_sample)
              ++ [Event.read (sc_sample r)]))
          (imx_sc_thermal_get_temp_loop pdata f (sc_sample r) rest) := by
  induction oks with
  | nil =>
    intro cpu f ha _
    simp only [List.length_nil, Nat.zero_add, Nat.add_comm 1 f, imx_sc_thermal_get_temp_loop, ha,
      ge_iff_le, if_true, List.nil_append, imx_read_temperature, hr, List.map_nil, alert_rounds]
    simp [Run.after]
  | cons y ys ih =>
    intro cpu f ha hall
    have hy := hall y (by simp)
    have g := ih (sc_sample y) f hy.2 (fun x hx => hall x (by simp [hx]))
    have hf : (y :: ys).length + 1 + f = (ys.length + 1 + f) + 1 := by simp; omega
    rw [hf]
    simp only [imx_sc_thermal_get_temp_loop, ha, ge_iff_le, if_true, List.cons_append,
      imx_read_temperature, hy.1, List.map_cons, alert_rounds]
    simp only [ne_eq, not_true_eq_false, if_false, Option.getD_some, g]
    simp [Run.after]

/-- The part of `imx_sc_thermal_get_temp` spent in the alert state: with
successful answers `oks` whose samples are at or above `alert`, followed by the
successful answer `r`, the call reads `oks.length + 1` times, sleeps
`oks.length` times and enters the loop test with the sample of `r`, fuel left. -/
theorem imx_get_temp_alert_phase (pdata : imx_sc_thermal_plat) (oks : List sc_reply)
    (r : sc_reply) (rest : List sc_reply) (hr : r.err = 0)
    (hall : ∀ x ∈ oks, x.err = 0 ∧ pdata.alert ≤ sc_sample x) :
    imx_sc_thermal_get_temp pdata (oks ++ r :: rest) =
      Run.after
        (alert_rounds pdata.alert pdata.critical pdata.polling_delay (oks.map sc_sample)
          ++ [Event.read (sc_sample r)])
        (imx_sc_thermal_get_temp_loop pdata (rest.length + 1) (sc_sample r) rest) := by
  cases oks with
  | nil =>
    simp [imx_sc_thermal_get_temp, imx_read_temperature, hr, alert_rounds]
  | cons x xs =>
    have hx := hall x (by simp)
    have g := imx_loop_alert_rounds pdata r rest hr xs (sc_sample x) (rest.length + 1) hx.2
      (fun y hy => hall y (by simp [hy]))
    have hf : (xs ++ r :: rest).length + 1 = xs.length + 1 + (rest.length + 1) := by
      simp; omega
    simp only [imx_sc_thermal_get_temp, List.cons_append, imx_read_temperature, hx.1, ne_eq,
      not_true_eq_false, if_false, Option.getD_some]
    rw [hf, g]
    simp [Run.after, alert_rounds]

/-- The fuel of the loop of `imx_sc_thermal_get_temp` does not matter once it
exceeds the number of answers: the fuel given by `imx_sc_thermal_get_temp` is
never used up. -/
theorem imx_loop_fuel (pdata : imx_sc_thermal_plat) : ∀ (f g : Nat) (cpu : Int)
    (hw : List sc_reply), hw.length < f → hw.length < g →
    imx_sc_thermal_get_temp_loop pdata f cpu hw =
      imx_sc_thermal_get_temp_loop pdata g cpu hw := by
  intro f
  induction f with
  | zero => intro g cpu hw h; omega
  | succ f ih =>
    intro g cpu hw hf hg
    obtain ⟨g, rfl⟩ : ∃ g', g = g' + 1 := ⟨g - 1, by omega⟩
    cases hw with
    | nil => simp only [imx_sc_thermal_get_temp_loop, imx_read_temperature]
    | cons r rest =>
      simp only [List.length_cons] at hf hg
      simp only [imx_sc_thermal_get_temp_loop, imx_read_temperature]
      by_cases hr : r.err = 0
      · simp only [hr, ne_eq, not_true_eq_false, if_false, Option.getD_some]
        rw [ih g (sc_sample r) rest (by omega) (by omega)]
      · simp [hr, EIO]

/-- The loop of `imx_sc_thermal_get_temp` entered with a sample below `alert`
returns at once with the sample in whole degrees. -/
theorem imx_loop_normal (pdata : imx_sc_thermal_plat) (f : Nat) (s : Int)
    (hw : List sc_reply) (hf : 0 < f) (hs : s < pdata.alert) :
    imx_sc_thermal_get_temp_loop pdata f s hw =
      ⟨Outcome.returned 0 (some (s.tdiv 1000)), []⟩ := by
  obtain ⟨g, rfl⟩ : ∃ g, f = g + 1 := ⟨f - 1, by omega⟩
  have : ¬ s ≥ pdata.alert := by omega
  simp only [imx_sc_thermal_get_temp_loop, this, if_false]

/-- In the loop of `nxp_tmu_get_temp`, `mx8_snvs_poweroff` is called on the
current sample exactly when it has reached both thresholds, and the same holds
for every sample read later. -/
theorem nxp_loop_served (pdata : nxp_tmu_plat) (pmic : Bool) : ∀ (f : Nat) (cpu : Int)
    (lpcr : Nat) (hw : List Nat), hw.length < f →
    poweroffs_upto_read (nxp_tmu_get_temp_loop pdata pmic f cpu lpcr hw).trace =
        (if pdata.alert ≤ cpu ∧ pdata.critical ≤ cpu then 1 else 0) ∧
      served (nxp_tmu_get_temp_loop pdata pmic f cpu lpcr hw).trace =
        (reads (nxp_tmu_get_temp_loop pdata pmic f cpu lpcr hw).trace).map
          (fun s => (s, if pdata.alert ≤ s ∧ pdata.critical ≤ s then 1 else 0)) := by
  intro f
  induction f with
  | zero => intro cpu lpcr hw h; omega
  | succ f ih =>
    intro cpu lpcr hw hlen
    by_cases ha : pdata.alert ≤ cpu
    · cases hrd : nxp_read_temperature hw with
      | none =>
        by_cases hc : pdata.critical ≤ cpu <;> cases pmic <;>
          simp [nxp_tmu_get_temp_loop, ha, hc, hrd, Run.after, poweroffs_upto_read, served, reads]
      | some v =>
        obtain ⟨ret, tmp, hw'⟩ := v
        obtain ⟨h0, hl⟩ := nxp_read_temperature_ret hw ret tmp hw' hrd
        subst h0
        have i0 := ih tmp lpcr hw' (by omega)
        obtain ⟨j1, j2⟩ := ih tmp (mx8_snvs_poweroff lpcr) hw' (by omega)
        obtain ⟨i1, i2⟩ := i0
        by_cases hc : pdata.critical ≤ cpu <;> cases pmic <;>
          simp [nxp_tmu_get_temp_loop, ha, hc, hrd, Run.after, poweroffs_upto_read, served,
            reads, i1, i2, j1, j2]
    · simp [nxp_tmu_get_temp_loop, ha, poweroffs_upto_read, served, reads]

/-- The loop of `imx_sc_thermal_get_temp` never calls `mx8_snvs_poweroff`. -/
theorem imx_loop_no_poweroff (pdata : imx_sc_thermal_plat) : ∀ (f : Nat) (cpu : Int)
    (hw : List sc_reply),
    poweroffs (imx_sc_thermal_get_temp_loop pdata f cpu hw).trace = 0 := by
  intro f
  induction f with
  | zero => intro cpu hw; simp [imx_sc_thermal_get_temp_loop, poweroffs]
  | succ f ih =>
    intro cpu hw
    by_cases ha : pdata.alert ≤ cpu
    · cases hw with
      | nil => simp [imx_sc_thermal_get_temp_loop, ha, imx_read_temperature, Run.after, poweroffs]
      | cons r rest =>
        by_cases hr : r.err = 0
        · simp [imx_sc_thermal_get_temp_loop, ha, imx_read_temperature, Run.after, poweroffs,
            hr, ih]
        · simp [imx_sc_thermal_get_temp_loop, ha, imx_read_temperature, Run.after, poweroffs,
            hr, EIO]
    · simp [imx_sc_thermal_get_temp_loop, ha, poweroffs]

/-- Run of `nxp_tmu_get_temp` on samples `ss` in `[alert, critical)` followed
by a sample `s` below `alert`. -/
theorem nxp_get_temp_normal_run (pdata : nxp_tmu_plat) (hw : tmu_hw) (ss : List Int)
    (s : Int) (rest : List Int)
    (hs : nxp_samples hw.tritsr = ss ++ s :: rest)
    (hall : ∀ x ∈ ss, pdata.alert ≤ x ∧ x < pdata.critical)
    (hlow : s < pdata.alert) :
    nxp_tmu_get_temp pdata hw =
      ⟨Outcome.returned 0 (some (s.tdiv 1000)),
        alert_rounds pdata.alert pdata.critical pdata.polling_delay ss ++ [Event.read s]⟩ := by
  obtain ⟨hw', f, _, hf, h⟩ := nxp_get_temp_alert_phase pdata hw ss s rest hs hall
  rw [h, nxp_loop_normal pdata hw.pmic_cuts f s hw.snvs_lpcr hw' (by omega) hlow]
  simp [Run.after]

/-- Run of `nxp_tmu_get_temp` on samples `ss` in `[alert, critical)` followed
by a sample `s` that has reached `critical`, the PMIC pulling power. -/
theorem nxp_get_temp_critical_run (pdata : nxp_tmu_plat) (hw : tmu_hw) (ss : List Int)
    (s : Int) (rest : List Int) (hp : hw.pmic_cuts = true)
    (hac : pdata.alert ≤ pdata.critical)
    (hs : nxp_samples hw.tritsr = ss ++ s :: rest)
    (hall : ∀ x ∈ ss, pdata.alert ≤ x ∧ x < pdata.critical)
    (hcrit : pdata.critical ≤ s) :
    nxp_tmu_get_temp pdata hw =
      ⟨Outcome.power_lost,
        alert_rounds pdata.alert pdata.critical pdata.polling_delay ss ++
          [Event.read s, Event.printf_critical,
            Event.poweroff (mx8_snvs_poweroff hw.snvs_lpcr)]⟩ := by
  obtain ⟨hw', f, _, hf, h⟩ := nxp_get_temp_alert_phase pdata hw ss s rest hs hall
  rw [h, hp, nxp_loop_critical pdata f s hw.snvs_lpcr hw' (by omega) (by omega) hcrit]
  simp [Run.after]

/-- Run of `imx_sc_thermal_get_temp` on successful answers `oks` with samples
at or above `alert` followed by a successful answer `r` with a sample below
`alert`. -/
theorem imx_get_temp_normal_run (pdata : imx_sc_thermal_plat) (oks : List sc_reply)
    (r : sc_reply) (rest : List sc_reply) (hr : r.err = 0)
    (hall : ∀ x ∈ oks, x.err = 0 ∧ pdata.alert ≤ sc_sample x)
    (hlow : sc_sample r < pdata.alert) :
    imx_sc_thermal_get_temp pdata (oks ++ r :: rest) =
      ⟨Outcome.returned 0 (some ((sc_sample r).tdiv 1000)),
        alert_rounds pdata.alert pdata.critical pdata.polling_delay (oks.map sc_sample) ++
          [Event.read (sc_sample r)]⟩ := by
  rw [imx_get_temp_alert_phase pdata oks r rest hr hall,
    imx_loop_normal pdata (rest.length + 1) (sc_sample r) rest (by omega) hlow]
  simp [Run.after]

theorem alert_rounds_append (a c d : Int) (xs ys : List Int) :
    alert_rounds a c d (xs ++ ys) = alert_rounds a c d xs ++ alert_rounds a c d ys := by
  induction xs with
  | nil => rfl
  | cons x xs ih => simp [alert_rounds, ih]

/-- No run of `imx_sc_thermal_get_temp` calls `mx8_snvs_poweroff`. -/
theorem imx_get_temp_no_poweroff (pdata : imx_sc_thermal_plat) (hw : List sc_reply) :
    poweroffs (imx_sc_thermal_get_temp pdata hw).trace = 0 := by
  cases hw with
  | nil => simp [imx_sc_thermal_get_temp, imx_read_temperature, poweroffs]
  | cons r rest =>
    by_cases hr : r.err = 0
    · simp [imx_sc_thermal_get_temp, imx_read_temperature, Run.after, poweroffs, hr,
        imx_loop_no_poweroff]
    · simp [imx_sc_thermal_get_temp, imx_read_temperature, Run.after, poweroffs, hr, EIO]

/-- In every run of `nxp_tmu_get_temp`, `mx8_snvs_poweroff` is called on a
sample exactly when the sample has reached both thresholds. -/
theorem nxp_get_temp_served (pdata : nxp_tmu_plat) (hw : tmu_hw) :
    served (nxp_tmu_get_temp pdata hw).trace =
      (reads (nxp_tmu_get_temp pdata hw).trace).map
        (fun s => (s, if pdata.alert ≤ s ∧ pdata.critical ≤ s then 1 else 0)) := by
  cases hrd : nxp_read_temperature hw.tritsr with
  | none => simp [nxp_tmu_get_temp, hrd, served, reads]
  | some v =>
    obtain ⟨ret, tmp, hw'⟩ := v
    obtain ⟨h0, _⟩ := nxp_read_temperature_ret hw.tritsr ret tmp hw' hrd
    subst h0
    obtain ⟨i1, i2⟩ :=
      nxp_loop_served pdata hw.pmic_cuts (hw'.length + 1) tmp hw.snvs_lpcr hw' (by omega)
    simp [nxp_tmu_get_temp, hrd, Run.after, served, reads, i1, i2]

/-! ## Lemmas on the register block -/

theorem u32_of_lt (v : Nat) (h : v < 2 ^ 32) : u32 v = v :=
  Nat.mod_eq_of_lt h

theorem fdt32_to_cpu_be32 (w : Nat) (h : w < 2 ^ 32) :
    fdt32_to_cpu (w / 2 ^ 24 % 256) (w / 2 ^ 16 % 256) (w / 2 ^ 8 % 256) (w % 256) = w := by
  simp only [fdt32_to_cpu]
  norm_num at h ⊢
  omega

theorem calibration_bytes_length (pairs : List (Nat × Nat)) :
    (calibration_bytes pairs).length = 8 * pairs.length := by
  induction pairs with
  | nil => rfl
  | cons p t ih =>
    obtain ⟨c, s⟩ := p
    simp [calibration_bytes, be32, ih]
    omega

/-- The loop of `nxp_tmu_calibration` on the bytes of a table of 32-bit pairs
writes the pairs in table order. -/
theorem nxp_tmu_calibration_loop_pairs (pairs : List (Nat × Nat)) : ∀ (io : tmu_io),
    (∀ p ∈ pairs, p.1 < 2 ^ 32 ∧ p.2 < 2 ^ 32) →
    nxp_tmu_calibration_loop (calibration_bytes pairs) io =
      ⟨calibration_regs io.regs pairs, io.writes ++ calibration_writes pairs⟩ := by
  induction pairs with
  | nil => intro io _; simp [calibration_bytes, nxp_tmu_calibration_loop, calibration_regs,
      calibration_writes]
  | cons p t ih =>
    intro io hp
    obtain ⟨c, s⟩ := p
    have hcs := hp (c, s) (by simp)
    have hb : calibration_bytes ((c, s) :: t) =
        c / 2 ^ 24 % 256 :: c / 2 ^ 16 % 256 :: c / 2 ^ 8 % 256 :: c % 256 ::
          s / 2 ^ 24 % 256 :: s / 2 ^ 16 % 256 :: s / 2 ^ 8 % 256 :: s % 256 ::
            calibration_bytes t := rfl
    rw [hb]
    simp only [nxp_tmu_calibration_loop]
    rw [fdt32_to_cpu_be32 c hcs.1, fdt32_to_cpu_be32 s hcs.2,
      ih _ (fun q hq => hp q (by simp [hq]))]
    have ec := u32_of_lt c hcs.1
    have es := u32_of_lt s hcs.2
    simp [writel, ec, es, calibration_regs, calibration_writes, nxp_tmu_regs.store]

/-- Loading a non-empty table leaves its last pair in the two configuration
registers and touches no other register. -/
theorem calibration_regs_last (pairs : List (Nat × Nat)) : ∀ (regs : nxp_tmu_regs),
    calibration_regs regs pairs =
      match pairs.getLast? with
      | none => regs
      | some p => { regs with ttcfgr := p.1, tscfgr := p.2 } := by
  induction pairs with
  | nil => intro regs; rfl
  | cons p t ih =>
    intro regs
    have h := ih { regs with ttcfgr := p.1, tscfgr := p.2 }
    simp only [calibration_regs, List.foldl_cons] at h ⊢
    rw [h]
    cases t with
    | nil => rfl
    | cons q u =>
      have hne : (q :: u).getLast? = some ((q :: u).getLast (by simp)) :=
        List.getLast?_eq_getLast _ _
      rw [List.getLast?_cons_cons, hne]

theorem shl_one_site (n : Nat) (h : n ≤ 15) : shl_one (15 - (n : Int)) = some (2 ^ (15 - n)) := by
  unfold shl_one
  rw [if_pos ⟨by omega, by omega⟩]
  congr 2
  omega

theorem site_bit_lt (n : Nat) (h : n ≤ 15) : 2 ^ (15 - n) < 2 ^ 16 :=
  Nat.pow_lt_pow_right (by decide) (by omega)

theorem site_bit_disjoint (n : Nat) (h : n ≤ 15) :
    2 ^ (15 - n) &&& (0x80000000 ||| 0x0c000000) = 0 := by
  interval_cases n <;> decide

/-! ## The threshold policy -/

/-- C1: in both drivers, `get_temp` on `k` samples in `[alert, critical)`
followed by a sample below `alert` returns 0 with that last sample divided by
1000 (truncated toward zero), after exactly `k + 1` reads and `k` sleeps of
`polling_delay` each, and without any call of the power-off routine. For the
memory-mapped driver the samples are those decoded from the site register; for
the controller-mediated driver they are those of the successful answers. -/
theorem get_temp_alert_then_normal (k : Nat) :
    (∀ (pdata : nxp_tmu_plat) (hw : tmu_hw) (ss : List Int) (s : Int) (rest : List Int),
      ss.length = k →
      nxp_samples hw.tritsr = ss ++ s :: rest →
      (∀ x ∈ ss, pdata.alert ≤ x ∧ x < pdata.critical) →
      s < pdata.alert →
      (nxp_tmu_get_temp pdata hw).outcome = Outcome.returned 0 (some (s.tdiv 1000)) ∧
      reads (nxp_tmu_get_temp pdata hw).trace = ss ++ [s] ∧
      (reads (nxp_tmu_get_temp pdata hw).trace).length = k + 1 ∧
      sleeps (nxp_tmu_get_temp pdata hw).trace = List.replicate k pdata.polling_delay ∧
      poweroffs (nxp_tmu_get_temp pdata hw).trace = 0) ∧
    (∀ (pdata : imx_sc_thermal_plat) (oks : List sc_reply) (r : sc_reply)
      (rest : List sc_reply),
      oks.length = k →
      (∀ x ∈ oks, x.err = 0 ∧ pdata.alert ≤ sc_sample x ∧ sc_sample x < pdata.critical) →
      r.err = 0 →
      sc_sample r < pdata.alert →
      (imx_sc_thermal_get_temp pdata (oks ++ r :: rest)).outcome =
        Outcome.returned 0 (some ((sc_sample r).tdiv 1000)) ∧
      reads (imx_sc_thermal_get_temp pdata (oks ++ r :: rest)).trace =
        oks.map sc_sample ++ [sc_sample r] ∧
      (reads (imx_sc_thermal_get_temp pdata (oks ++ r :: rest)).trace).length = k + 1 ∧
      sleeps (imx_sc_thermal_get_temp pdata (oks ++ r :: rest)).trace =
        List.replicate k pdata.polling_delay ∧
      poweroffs (imx_sc_thermal_get_temp pdata (oks ++ r :: rest)).trace = 0) := by
  constructor
  · intro pdata hw ss s rest hk hs hall hlow
    rw [nxp_get_temp_normal_run pdata hw ss s rest hs hall hlow]
    simp [reads_append, sleeps_append, poweroffs_append, reads_alert_rounds,
      sleeps_alert_rounds, poweroffs_alert_rounds, reads, sleeps, poweroffs, hk]
  · intro pdata oks r rest hk hall hr hlow
    rw [imx_get_temp_normal_run pdata oks r rest hr (fun x hx => ⟨(hall x hx).1, (hall x hx).2.1⟩)
      hlow]
    simp [reads_append, sleeps_append, poweroffs_append, reads_alert_rounds,
      sleeps_alert_rounds, poweroffs_alert_rounds, reads, sleeps, poweroffs, hk]

/-- C1 at `k = 2`, thresholds 80000 and 85000, delay 1000: the site register
shows 82, an invalid value, 81, then 79; the controller answers 82.0, 81.0,
then 79.5. -/
theorem get_temp_alert_then_normal_witness :
    ((nxp_tmu_get_temp ⟨85000, 80000, 1000, 0, false, 1⟩
        ⟨[0x80000052, 0x51, 0x80000051, 0x8000004f], 0, true⟩).outcome =
        Outcome.returned 0 (some 79) ∧
      sleeps (nxp_tmu_get_temp ⟨85000, 80000, 1000, 0, false, 1⟩
        ⟨[0x80000052, 0x51, 0x80000051, 0x8000004f], 0, true⟩).trace = [1000, 1000]) ∧
    ((imx_sc_thermal_get_temp ⟨85000, 80000, 1000, 0, false⟩
        [⟨0, 82, 0⟩, ⟨0, 81, 0⟩, ⟨0, 79, 5⟩]).outcome = Outcome.returned 0 (some 79) ∧
      sleeps (imx_sc_thermal_get_temp ⟨85000, 80000, 1000, 0, false⟩
        [⟨0, 82, 0⟩, ⟨0, 81, 0⟩, ⟨0, 79, 5⟩]).trace = [1000, 1000]) := by
  have h1 := (get_temp_alert_then_normal 2).1 ⟨85000, 80000, 1000, 0, false, 1⟩
    ⟨[0x80000052, 0x51, 0x80000051, 0x8000004f], 0, true⟩ [82000, 81000] 79000 []
    rfl (by decide) (by decide) (by decide)
  have h2 := (get_temp_alert_then_normal 2).2 ⟨85000, 80000, 1000, 0, false⟩
    [⟨0, 82, 0⟩, ⟨0, 81, 0⟩] ⟨0, 79, 5⟩ [] rfl (by decide) (by decide) (by decide)
  exact ⟨⟨h1.1, h1.2.2.2.1⟩, ⟨h2.1, h2.2.2.2.1⟩⟩

/-- C2: in the memory-mapped driver with `alert ≤ critical` and a PMIC that
pulls power, `k` samples in `[alert, critical)` followed by a sample at or
above `critical` make `nxp_tmu_get_temp` read `k + 1` times, sleep `k` times
for `polling_delay`, then print the critical message and call the power-off
routine exactly once, as its last action; no value is returned. -/
theorem nxp_get_temp_critical_poweroff (k : Nat) (pdata : nxp_tmu_plat) (hw : tmu_hw)
    (ss : List Int) (s : Int) (rest : List Int)
    (hk : ss.length = k)
    (hp : hw.pmic_cuts = true)
    (hac : pdata.alert ≤ pdata.critical)
    (hs : nxp_samples hw.tritsr = ss ++ s :: rest)
    (hall : ∀ x ∈ ss, pdata.alert ≤ x ∧ x < pdata.critical)
    (hcrit : pdata.critical ≤ s) :
    (nxp_tmu_get_temp pdata hw).outcome = Outcome.power_lost ∧
    (nxp_tmu_get_temp pdata hw).trace =
      alert_rounds pdata.alert pdata.critical pdata.polling_delay ss ++
        [Event.read s, Event.printf_critical,
          Event.poweroff (mx8_snvs_poweroff hw.snvs_lpcr)] ∧
    reads (nxp_tmu_get_temp pdata hw).trace = ss ++ [s] ∧
    (reads (nxp_tmu_get_temp pdata hw).trace).length = k + 1 ∧
    sleeps (nxp_tmu_get_temp pdata hw).trace = List.replicate k pdata.polling_delay ∧
    poweroffs (nxp_tmu_get_temp pdata hw).trace = 1 := by
  rw [nxp_get_temp_critical_run pdata hw ss s rest hp hac hs hall hcrit]
  simp [reads_append, sleeps_append, poweroffs_append, reads_alert_rounds,
    sleeps_alert_rounds, poweroffs_alert_rounds, reads, sleeps, poweroffs, hk]

/-- C2 at `k = 1`, thresholds 80000 and 85000: the site register shows 82 and
then 85. -/
theorem nxp_get_temp_critical_poweroff_witness :
    (nxp_tmu_get_temp ⟨85000, 80000, 1000, 0, false, 1⟩
        ⟨[0x80000052, 0x80000055, 0x80000040], 0, true⟩).outcome = Outcome.power_lost ∧
    (nxp_tmu_get_temp ⟨85000, 80000, 1000, 0, false, 1⟩
        ⟨[0x80000052, 0x80000055, 0x80000040], 0, true⟩).trace =
      [Event.read 82000, Event.printf_alert 82000 80000 85000, Event.mdelay 1000,
       Event.read 85000, Event.printf_critical, Event.poweroff 0x60] := by
  have h := nxp_get_temp_critical_poweroff 1 ⟨85000, 80000, 1000, 0, false, 1⟩
    ⟨[0x80000052, 0x80000055, 0x80000040], 0, true⟩ [82000] 85000 [64000]
    rfl rfl (by decide) (by decide) (by decide) (by decide)
  exact ⟨h.1, h.2.1⟩

/-- C3, as stated, fails: with `alert = 80000 ≤ critical = 85000` the
controller-mediated driver reads the sample 85000 successfully, yet it only
warns and sleeps, reads 79000 next and returns 79; the power-off routine is
not called. -/
theorem imx_get_temp_critical_counterexample :
    (80000 : Int) ≤ 85000 ∧ (85000 : Int) ≤ sc_sample ⟨0, 85, 0⟩ ∧
    imx_sc_thermal_get_temp ⟨85000, 80000, 1000, 0, false⟩ [⟨0, 85, 0⟩, ⟨0, 79, 0⟩] =
      ⟨Outcome.returned 0 (some 79),
        [Event.read 85000, Event.printf_alert 85000 80000 85000, Event.mdelay 1000,
         Event.read 79000]⟩ ∧
    poweroffs (imx_sc_thermal_get_temp ⟨85000, 80000, 1000, 0, false⟩
      [⟨0, 85, 0⟩, ⟨0, 79, 0⟩]).trace = 0 := by
  decide

/-- C3, amended: `imx_sc_thermal_get_temp` never calls the power-off routine,
whatever the binding and the answers. With `alert ≤ critical`, a successfully
read sample at or above `critical` is handled like every sample at or above
`alert`: it is reported, `polling_delay` is slept and the sensor is read again;
once a successful answer lies below `alert`, the call returns 0 with that
sample divided by 1000. -/
theorem imx_get_temp_critical_is_alert :
    (∀ (pdata : imx_sc_thermal_plat) (hw : List sc_reply),
      poweroffs (imx_sc_thermal_get_temp pdata hw).trace = 0) ∧
    (∀ (pdata : imx_sc_thermal_plat) (pre : List sc_reply) (c : sc_reply)
      (post : List sc_reply) (r : sc_reply) (rest : List sc_reply),
      pdata.alert ≤ pdata.critical →
      (∀ x ∈ pre ++ post, x.err = 0 ∧ pdata.alert ≤ sc_sample x) →
      c.err = 0 → pdata.critical ≤ sc_sample c →
      r.err = 0 → sc_sample r < pdata.alert →
      imx_sc_thermal_get_temp pdata (pre ++ c :: (post ++ r :: rest)) =
        ⟨Outcome.returned 0 (some ((sc_sample r).tdiv 1000)),
          alert_rounds pdata.alert pdata.critical pdata.polling_delay (pre.map sc_sample) ++
            (Event.read (sc_sample c) ::
              Event.printf_alert (sc_sample c) pdata.alert pdata.critical ::
              Event.mdelay pdata.polling_delay ::
              (alert_rounds pdata.alert pdata.critical pdata.polling_delay
                  (post.map sc_sample) ++ [Event.read (sc_sample r)]))⟩) := by
  refine ⟨imx_get_temp_no_poweroff, ?_⟩
  intro pdata pre c post r rest hac hall hc hcrit hr hlow
  have h := imx_get_temp_normal_run pdata (pre ++ c :: post) r rest hr
    (by
      intro x hx
      simp only [List.mem_append, List.mem_cons] at hx
      rcases hx with hx | rfl | hx
      · exact hall x (by simp [hx])
      · exact ⟨hc, by omega⟩
      · exact hall x (by simp [hx]))
    hlow
  simp only [List.append_assoc, List.cons_append] at h
  rw [h]
  simp [alert_rounds_append, alert_rounds]

/-- C3 amended, at thresholds 80000 and 85000: answers 82.0, 85.0, 81.0 and
then 79.0. -/
theorem imx_get_temp_critical_is_alert_witness :
    imx_sc_thermal_get_temp ⟨85000, 80000, 1000, 0, false⟩
        [⟨0, 82, 0⟩, ⟨0, 85, 0⟩, ⟨0, 81, 0⟩, ⟨0, 79, 0⟩] =
      ⟨Outcome.returned 0 (some 79),
        [Event.read 82000, Event.printf_alert 82000 80000 85000, Event.mdelay 1000,
         Event.read 85000, Event.printf_alert 85000 80000 85000, Event.mdelay 1000,
         Event.read 81000, Event.printf_alert 81000 80000 85000, Event.mdelay 1000,
         Event.read 79000]⟩ :=
  imx_get_temp_critical_is_alert.2 ⟨85000, 80000, 1000, 0, false⟩
    [⟨0, 82, 0⟩] ⟨0, 85, 0⟩ [⟨0, 81, 0⟩] ⟨0, 79, 0⟩ []
    (by decide) (by decide) (by decide) (by decide) (by decide) (by decide)

/-- C4 on the code: the binding `alert = 80`, `critical = 85`,
`polling_delay = 1000` is the one both `ofdata_to_platdata` functions store for
trips that carry no `temperature` cell, in degrees, while `get_temp` compares
it unscaled with samples in millidegrees. On the samples 82000, 81000, 79000
the memory-mapped driver calls the power-off routine on the first sample (on
each of the three when the PMIC does not pull power), and the
controller-mediated driver sleeps a third time after 79000 and reads again;
neither returns 79 after three reads and two sleeps. On this binding the
memory-mapped driver powers off at a sample of 25000 as well. With the same
thresholds written in the unit of the samples the example runs as stated. -/
theorem get_temp_example_unit_slip :
    nxp_tmu_ofdata_to_platdata (2 ^ 64 - 1) nxp_tmu_plat.zero
        ⟨0, 0, 0, 0, true, 0x30260000⟩ 100
        ⟨none, 0, ⟨100, 1, 0⟩, some 1000,
          some [⟨some "passive", none⟩, ⟨some "critical", none⟩]⟩ =
      (0, ⟨85, 80, 1000, 0, false, 0x30260000⟩) ∧
    imx_sc_thermal_ofdata_to_platdata imx_sc_thermal_plat.zero 100
        ⟨none, 0, ⟨100, 1, 0⟩, some 1000,
          some [⟨some "passive", none⟩, ⟨some "critical", none⟩]⟩ =
      (0, ⟨85, 80, 1000, 0, false⟩) ∧
    nxp_tmu_get_temp ⟨85, 80, 1000, 0, false, 0x30260000⟩
        ⟨[0x80000052, 0x80000051, 0x8000004f], 0, true⟩ =
      ⟨Outcome.power_lost, [Event.read 82000, Event.printf_critical, Event.poweroff 0x60]⟩ ∧
    (nxp_tmu_get_temp ⟨85, 80, 1000, 0, false, 0x30260000⟩
        ⟨[0x80000052, 0x80000051, 0x8000004f], 0, false⟩).outcome = Outcome.blocked ∧
    poweroffs (nxp_tmu_get_temp ⟨85, 80, 1000, 0, false, 0x30260000⟩
        ⟨[0x80000052, 0x80000051, 0x8000004f], 0, false⟩).trace = 3 ∧
    imx_sc_thermal_get_temp ⟨85, 80, 1000, 0, false⟩
        [⟨0, 82, 0⟩, ⟨0, 81, 0⟩, ⟨0, 79, 0⟩] =
      ⟨Outcome.blocked,
        [Event.read 82000, Event.printf_alert 82000 80 85, Event.mdelay 1000,
         Event.read 81000, Event.printf_alert 81000 80 85, Event.mdelay 1000,
         Event.read 79000, Event.printf_alert 79000 80 85, Event.mdelay 1000]⟩ ∧
    imx_sc_thermal_get_temp ⟨85, 80, 1000, 0, false⟩
        [⟨0, 82, 0⟩, ⟨0, 81, 0⟩, ⟨0, 79, 0⟩, ⟨0, 0, 0⟩] =
      ⟨Outcome.returned 0 (some 0),
        [Event.read 82000, Event.printf_alert 82000 80 85, Event.mdelay 1000,
         Event.read 81000, Event.printf_alert 81000 80 85, Event.mdelay 1000,
         Event.read 79000, Event.printf_alert 79000 80 85, Event.mdelay 1000,
         Event.read 0]⟩ ∧
    nxp_tmu_get_temp ⟨85, 80, 1000, 0, false, 0x30260000⟩ ⟨[0x80000019], 0, true⟩ =
      ⟨Outcome.power_lost, [Event.read 25000, Event.printf_critical, Event.poweroff 0x60]⟩ ∧
    nxp_tmu_get_temp ⟨85000, 80000, 1000, 0, false, 0x30260000⟩
        ⟨[0x80000052, 0x80000051, 0x8000004f], 0, true⟩ =
      ⟨Outcome.returned 0 (some 79),
        [Event.read 82000, Event.printf_alert 82000 80000 85000, Event.mdelay 1000,
         Event.read 81000, Event.printf_alert 81000 80000 85000, Event.mdelay 1000,
         Event.read 79000]⟩ ∧
    imx_sc_thermal_get_temp ⟨85000, 80000, 1000, 0, false⟩
        [⟨0, 82, 0⟩, ⟨0, 81, 0⟩, ⟨0, 79, 0⟩] =
      ⟨Outcome.returned 0 (some 79),
        [Event.read 82000, Event.printf_alert 82000 80000 85000, Event.mdelay 1000,
         Event.read 81000, Event.printf_alert 81000 80000 85000, Event.mdelay 1000,
         Event.read 79000]⟩ := by
  decide

/-- C10: in `nxp_tmu_get_temp` the comparison with `critical` is reached only
for samples at or above `alert`. With `critical < alert`, a first sample `s`
with `critical ≤ s < alert` gives one read, no warning, no sleep, no power-off
and the return of 0 with `s / 1000`. In every run, the power-off routine is
called on a sample (once) exactly when that sample is at or above `alert` and
at or above `critical`. -/
theorem nxp_get_temp_critical_behind_alert :
    (∀ (pdata : nxp_tmu_plat) (hw : tmu_hw) (s : Int) (rest : List Int),
      pdata.critical < pdata.alert →
      nxp_samples hw.tritsr = s :: rest →
      pdata.critical ≤ s → s < pdata.alert →
      nxp_tmu_get_temp pdata hw =
        ⟨Outcome.returned 0 (some (s.tdiv 1000)), [Event.read s]⟩ ∧
      reads (nxp_tmu_get_temp pdata hw).trace = [s] ∧
      warnings (nxp_tmu_get_temp pdata hw).trace = 0 ∧
      sleeps (nxp_tmu_get_temp pdata hw).trace = [] ∧
      poweroffs (nxp_tmu_get_temp pdata hw).trace = 0) ∧
    (∀ (pdata : nxp_tmu_plat) (hw : tmu_hw),
      served (nxp_tmu_get_temp pdata hw).trace =
        (reads (nxp_tmu_get_temp pdata hw).trace).map
          (fun s => (s, if pdata.alert ≤ s ∧ pdata.critical ≤ s then 1 else 0))) := by
  refine ⟨?_, nxp_get_temp_served⟩
  intro pdata hw s rest _ hs _ hlow
  rw [nxp_get_temp_normal_run pdata hw [] s rest (by simpa using hs) (by simp) hlow]
  simp [alert_rounds, reads, warnings, sleeps, poweroffs]

/-- C10 at `critical = 70000 < alert = 80000`: the site register shows 75. -/
theorem nxp_get_temp_critical_behind_alert_witness :
    nxp_tmu_get_temp ⟨70000, 80000, 1000, 0, false, 1⟩ ⟨[0x8000004b], 0, true⟩ =
      ⟨Outcome.returned 0 (some 75), [Event.read 75000]⟩ :=
  (nxp_get_temp_critical_behind_alert.1 ⟨70000, 80000, 1000, 0, false, 1⟩
    ⟨[0x8000004b], 0, true⟩ 75000 [] (by decide) rfl (by decide) (by decide)).1

/-! ## The calibration loader -/

/-- C5, as stated, fails: with the range array 1, 2, 3, 4 and a calibration
table of 4 bytes, `nxp_tmu_calibration` returns `-ENODEV` but has written the
four range-control registers before looking at the table. -/
theorem nxp_tmu_calibration_malformed_counterexample :
    ([0, 0, 0, 1] : List Nat).length % 8 ≠ 0 ∧
    (nxp_tmu_calibration ⟨0, (1, 2, 3, 4), some [0, 0, 0, 1]⟩ ⟨nxp_tmu_regs.zero, []⟩).1 =
      -ENODEV ∧
    (nxp_tmu_calibration ⟨0, (1, 2, 3, 4), some [0, 0, 0, 1]⟩ ⟨nxp_tmu_regs.zero, []⟩).2.writes =
      [(tmu_reg.ttr0cr, 1), (tmu_reg.ttr1cr, 2), (tmu_reg.ttr2cr, 3), (tmu_reg.ttr3cr, 4)] ∧
    (nxp_tmu_calibration ⟨0, (1, 2, 3, 4), some [0, 0, 0, 1]⟩ ⟨nxp_tmu_regs.zero, []⟩).2.regs ≠
      nxp_tmu_regs.zero := by
  decide

/-- C5, amended: with a valid range array `r0..r3` and a calibration table
whose byte length is not a multiple of 8, `nxp_tmu_calibration` returns
`-ENODEV` and writes neither configuration register; its only writes are
`r0..r3` to the four range-control registers, in this order, and every other
register of the block keeps its value. -/
theorem nxp_tmu_calibration_malformed (cfg : tmu_calibration_cfg) (io : tmu_io)
    (bytes : List Nat)
    (hret : cfg.range_ret = 0)
    (hcal : cfg.calibration = some bytes)
    (hlen : bytes.length % 8 ≠ 0) :
    (nxp_tmu_calibration cfg io).1 = -ENODEV ∧
    (nxp_tmu_calibration cfg io).2.writes =
      io.writes ++ [(tmu_reg.ttr0cr, u32 cfg.range.1), (tmu_reg.ttr1cr, u32 cfg.range.2.1),
        (tmu_reg.ttr2cr, u32 cfg.range.2.2.1), (tmu_reg.ttr3cr, u32 cfg.range.2.2.2)] ∧
    (nxp_tmu_calibration cfg io).2.regs =
      { io.regs with ttr0cr := u32 cfg.range.1, ttr1cr := u32 cfg.range.2.1,
                     ttr2cr := u32 cfg.range.2.2.1, ttr3cr := u32 cfg.range.2.2.2 } := by
  simp [nxp_tmu_calibration, hret, hcal, hlen, writel, nxp_tmu_regs.store]

/-- C5 amended, on the range array 1, 2, 3, 4 and a table of 4 bytes. -/
theorem nxp_tmu_calibration_malformed_witness :
    (nxp_tmu_calibration ⟨0, (1, 2, 3, 4), some [0, 0, 0, 1]⟩ ⟨nxp_tmu_regs.zero, []⟩).1 =
      -ENODEV ∧
    (nxp_tmu_calibration ⟨0, (1, 2, 3, 4), some [0, 0, 0, 1]⟩ ⟨nxp_tmu_regs.zero, []⟩).2.writes =
      [(tmu_reg.ttr0cr, 1), (tmu_reg.ttr1cr, 2), (tmu_reg.ttr2cr, 3), (tmu_reg.ttr3cr, 4)] := by
  have h := nxp_tmu_calibration_malformed ⟨0, (1, 2, 3, 4), some [0, 0, 0, 1]⟩
    ⟨nxp_tmu_regs.zero, []⟩ [0, 0, 0, 1] rfl rfl (by decide)
  exact ⟨h.1, h.2.1⟩

/-- C6: with a range array `r0..r3` and a calibration table made of the pairs
`(c_i, s_i)` of 32-bit words, stored big-endian (`8 * n` bytes for `n` pairs),
`nxp_tmu_calibration` returns 0 and its writes are exactly `r0..r3` to the
four range-control registers followed, pair by pair in table order, by `c_i`
to `ttcfgr` and `s_i` to `tscfgr`. Afterwards the range-control registers hold
`r0..r3`, the two configuration registers hold the last pair when there is
one, and no other register has changed. -/
theorem nxp_tmu_calibration_table (cfg : tmu_calibration_cfg) (io : tmu_io)
    (pairs : List (Nat × Nat))
    (hret : cfg.range_ret = 0)
    (hrange : cfg.range.1 < 2 ^ 32 ∧ cfg.range.2.1 < 2 ^ 32 ∧ cfg.range.2.2.1 < 2 ^ 32 ∧
      cfg.range.2.2.2 < 2 ^ 32)
    (hcal : cfg.calibration = some (calibration_bytes pairs))
    (hpairs : ∀ p ∈ pairs, p.1 < 2 ^ 32 ∧ p.2 < 2 ^ 32) :
    (calibration_bytes pairs).length = 8 * pairs.length ∧
    (nxp_tmu_calibration cfg io).1 = 0 ∧
    (nxp_tmu_calibration cfg io).2.writes =
      io.writes ++ [(tmu_reg.ttr0cr, cfg.range.1), (tmu_reg.ttr1cr, cfg.range.2.1),
        (tmu_reg.ttr2cr, cfg.range.2.2.1), (tmu_reg.ttr3cr, cfg.range.2.2.2)] ++
        calibration_writes pairs ∧
    (nxp_tmu_calibration cfg io).2.regs =
      (match pairs.getLast? with
       | none =>
         { io.regs with ttr0cr := cfg.range.1, ttr1cr := cfg.range.2.1,
                        ttr2cr := cfg.range.2.2.1, ttr3cr := cfg.range.2.2.2 }
       | some p =>
         { io.regs with ttr0cr := cfg.range.1, ttr1cr := cfg.range.2.1,
                        ttr2cr := cfg.range.2.2.1, ttr3cr := cfg.range.2.2.2,
                        ttcfgr := p.1, tscfgr := p.2 }) := by
  obtain ⟨h0, h1, h2, h3⟩ := hrange
  have hl := calibration_bytes_length pairs
  have hmod : (calibration_bytes pairs).length % 8 = 0 := by omega
  have e0 := u32_of_lt _ h0
  have e1 := u32_of_lt _ h1
  have e2 := u32_of_lt _ h2
  have e3 := u32_of_lt _ h3
  refine ⟨hl, ?_, ?_, ?_⟩
  · simp [nxp_tmu_calibration, hret, hcal, hmod]
  · simp [nxp_tmu_calibration, hret, hcal, hmod, nxp_tmu_calibration_loop_pairs _ _ hpairs,
      writel, e0, e1, e2, e3]
  · simp only [nxp_tmu_calibration, hret, hcal, hmod, ne_eq, not_true_eq_false, if_false,
      nxp_tmu_calibration_loop_pairs _ _ hpairs, calibration_regs_last]
    cases pairs.getLast? <;>
      simp [writel, e0, e1, e2, e3, nxp_tmu_regs.store]

/-- C6 on the range array 1, 2, 3, 4 and the table of the two pairs
`(0x10, 0x25)` and `(0x11, 0x2a)`. -/
theorem nxp_tmu_calibration_table_witness :
    (nxp_tmu_calibration
        ⟨0, (1, 2, 3, 4),
          some [0, 0, 0, 0x10, 0, 0, 0, 0x25, 0, 0, 0, 0x11, 0, 0, 0, 0x2a]⟩
        ⟨nxp_tmu_regs.zero, []⟩).2.writes =
      [(tmu_reg.ttr0cr, 1), (tmu_reg.ttr1cr, 2), (tmu_reg.ttr2cr, 3), (tmu_reg.ttr3cr, 4),
       (tmu_reg.ttcfgr, 0x10), (tmu_reg.tscfgr, 0x25),
       (tmu_reg.ttcfgr, 0x11), (tmu_reg.tscfgr, 0x2a)] :=
  (nxp_tmu_calibration_table
    ⟨0, (1, 2, 3, 4), some [0, 0, 0, 0x10, 0, 0, 0, 0x25, 0, 0, 0, 0x11, 0, 0, 0, 0x2a]⟩
    ⟨nxp_tmu_regs.zero, []⟩ [(0x10, 0x25), (0x11, 0x2a)] rfl (by decide) (by decide)
    (by decide)).2.2.1

/-! ## The monitoring-site enable sequence -/

/-- C9: for a sensor id `n` in `0..15`, a 32-bit mode register value `r` and a
present register block, `nxp_tmu_enable_msite` returns 0 after exactly three
writes, all to the mode register: `r` without bit 31; that value with bit
`15 - n` and the filter flag `0x0c000000`; that value with bit 31. The mode
register ends as `(r & 0x7fffffff) | (1 << (15 - n)) | 0x0c000000 | 0x80000000`
and no other register changes; the site bit lies in bits 0..15 and shares no
bit with the enable and filter flags. With an absent register block the
function returns `-EIO` and writes nothing. -/
theorem nxp_tmu_enable_msite_writes :
    (∀ (pdata : nxp_tmu_plat) (io : tmu_io) (n : Nat),
      pdata.regs ≠ 0 → pdata.id = n → n ≤ 15 → io.regs.tmr < 2 ^ 32 →
      nxp_tmu_enable_msite pdata io =
        some (0,
          ⟨{ io.regs with
              tmr := (io.regs.tmr &&& 0x7fffffff) ||| 2 ^ (15 - n) ||| 0x0c000000 |||
                0x80000000 },
            io.writes ++
              [(tmu_reg.tmr, io.regs.tmr &&& 0x7fffffff),
               (tmu_reg.tmr, (io.regs.tmr &&& 0x7fffffff) ||| 2 ^ (15 - n) ||| 0x0c000000),
               (tmu_reg.tmr, (io.regs.tmr &&& 0x7fffffff) ||| 2 ^ (15 - n) ||| 0x0c000000 |||
                 0x80000000)]⟩) ∧
      2 ^ (15 - n) < 2 ^ 16 ∧
      2 ^ (15 - n) &&& (0x80000000 ||| 0x0c000000) = 0) ∧
    (∀ (pdata : nxp_tmu_plat) (io : tmu_io),
      pdata.regs = 0 → nxp_tmu_enable_msite pdata io = some (- EIO, io)) := by
  constructor
  · intro pdata io n hregs hid hn hr
    refine ⟨?_, site_bit_lt n hn, site_bit_disjoint n hn⟩
    have hm : (0xffffffff ^^^ 0x80000000 : Nat) = 0x7fffffff := by decide
    have hb : 2 ^ (15 - n) < 2 ^ 32 :=
      Nat.lt_trans (site_bit_lt n hn) (by decide)
    have ha : io.regs.tmr &&& 0x7fffffff < 2 ^ 32 :=
      Nat.lt_of_le_of_lt Nat.and_le_right (by decide)
    have hab : (io.regs.tmr &&& 0x7fffffff) ||| 2 ^ (15 - n) < 2 ^ 32 :=
      Nat.or_lt_two_pow ha hb
    have habf : (io.regs.tmr &&& 0x7fffffff) ||| 2 ^ (15 - n) ||| 0x0c000000 < 2 ^ 32 :=
      Nat.or_lt_two_pow hab (by decide)
    have hall : (io.regs.tmr &&& 0x7fffffff) ||| 2 ^ (15 - n) ||| 0x0c000000 ||| 0x80000000
        < 2 ^ 32 := Nat.or_lt_two_pow habf (by decide)
    have e0 := u32_of_lt _ hr
    have e1 := u32_of_lt _ ha
    have e2 := u32_of_lt _ habf
    have e3 := u32_of_lt _ hall
    simp only [nxp_tmu_enable_msite, hregs, if_false, hid, shl_one_site n hn, TMR_ALPF,
      TMR_ME, hm, e0, writel, e1, e2, e3, nxp_tmu_regs.store, List.append_assoc,
      List.cons_append, List.nil_append]
  · intro pdata io h
    simp [nxp_tmu_enable_msite, h]

/-- C9 for sensor id 3 and the mode register value `0x80000100`. -/
theorem nxp_tmu_enable_msite_writes_witness :
    nxp_tmu_enable_msite ⟨85000, 80000, 1000, 3, false, 0x30260000⟩
        ⟨{ nxp_tmu_regs.zero with tmr := 0x80000100 }, []⟩ =
      some (0,
        ⟨{ nxp_tmu_regs.zero with tmr := 0x8c001100 },
          [(tmu_reg.tmr, 0x00000100), (tmu_reg.tmr, 0x0c001100),
           (tmu_reg.tmr, 0x8c001100)]⟩) ∧
    nxp_tmu_enable_msite ⟨85000, 80000, 1000, 3, false, 0⟩ ⟨nxp_tmu_regs.zero, []⟩ =
      some (- EIO, ⟨nxp_tmu_regs.zero, []⟩) :=
  ⟨(nxp_tmu_enable_msite_writes.1 ⟨85000, 80000, 1000, 3, false, 0x30260000⟩
      ⟨{ nxp_tmu_regs.zero with tmr := 0x80000100 }, []⟩ 3 (by decide) rfl (by decide)
      (by decide)).1,
   nxp_tmu_enable_msite_writes.2 ⟨85000, 80000, 1000, 3, false, 0⟩ ⟨nxp_tmu_regs.zero, []⟩ rfl⟩

/-! ## Configuration resolution -/

/-- C7, as stated, fails for `nxp_tmu_ofdata_to_platdata`: a fresh non-root
node under a root parent, whose sensor reference resolves to node 200 while
the parent is node 100, gets `-EFAULT`, but its register block reference has
already been set to the parent's. -/
theorem ofdata_mismatch_counterexample :
    (200 : Int) ≠ 100 ∧
    nxp_tmu_ofdata_to_platdata (2 ^ 64 - 1) nxp_tmu_plat.zero
        ⟨0, 0, 0, 0, true, 0x30260000⟩ 100
        ⟨none, 0, ⟨200, 1, 0⟩, some 2000, none⟩ =
      (-EFAULT, ⟨0, 0, 0, 0, false, 0x30260000⟩) ∧
    (nxp_tmu_ofdata_to_platdata (2 ^ 64 - 1) nxp_tmu_plat.zero
        ⟨0, 0, 0, 0, true, 0x30260000⟩ 100
        ⟨none, 0, ⟨200, 1, 0⟩, some 2000, none⟩).2.regs ≠ nxp_tmu_plat.zero.regs := by
  decide

/-- C7, amended: for a non-root node whose sensor reference resolves to a
node other than its direct parent, both `ofdata_to_platdata` functions return
`-EFAULT` and leave the sensor id, `polling_delay`, `critical` and `alert` as
they were. `imx_sc_thermal_ofdata_to_platdata` changes nothing at all;
`nxp_tmu_ofdata_to_platdata` has by then set the register block reference to
the parent's when the parent is a root node, and left it alone otherwise. -/
theorem ofdata_mismatch :
    (∀ (addr_none : Nat) (pdata parent : nxp_tmu_plat) (parent_offset : Int)
      (node : thermal_node),
      pdata.zone_node = false → node.sensors_ret = 0 → node.sensors.node ≠ parent_offset →
      nxp_tmu_ofdata_to_platdata addr_none pdata parent parent_offset node =
        (-EFAULT,
          { pdata with regs := if parent.zone_node then parent.regs else pdata.regs })) ∧
    (∀ (pdata : imx_sc_thermal_plat) (parent_offset : Int) (node : thermal_node),
      pdata.zone_node = false → node.sensors_ret = 0 → node.sensors.node ≠ parent_offset →
      imx_sc_thermal_ofdata_to_platdata pdata parent_offset node = (-EFAULT, pdata)) := by
  constructor
  · intro addr_none pdata parent parent_offset node hz hret hne
    obtain ⟨c, a, d, i, z, r⟩ := pdata
    simp only at hz
    subst hz
    cases hp : parent.zone_node <;>
      simp [nxp_tmu_ofdata_to_platdata, hret, hne, hp]
  · intro pdata parent_offset node hz hret hne
    simp [imx_sc_thermal_ofdata_to_platdata, hz, hret, hne]

/-- C7 amended, on a node whose sensor reference resolves to node 200 under
the parent node 100. -/
theorem ofdata_mismatch_witness :
    nxp_tmu_ofdata_to_platdata (2 ^ 64 - 1) ⟨85000, 80000, 2000, 1, false, 0⟩
        ⟨0, 0, 0, 0, true, 0x30260000⟩ 100
        ⟨none, 0, ⟨200, 1, 0⟩, some 1000, none⟩ =
      (-EFAULT, ⟨85000, 80000, 2000, 1, false, 0x30260000⟩) ∧
    imx_sc_thermal_ofdata_to_platdata ⟨85000, 80000, 2000, 1, false⟩ 100
        ⟨none, 0, ⟨200, 1, 0⟩, some 1000, none⟩ =
      (-EFAULT, ⟨85000, 80000, 2000, 1, false⟩) :=
  ⟨ofdata_mismatch.1 (2 ^ 64 - 1) ⟨85000, 80000, 2000, 1, false, 0⟩
      ⟨0, 0, 0, 0, true, 0x30260000⟩ 100 ⟨none, 0, ⟨200, 1, 0⟩, some 1000, none⟩
      rfl rfl (by decide),
   ofdata_mismatch.2 ⟨85000, 80000, 2000, 1, false⟩ 100
      ⟨none, 0, ⟨200, 1, 0⟩, some 1000, none⟩ rfl rfl (by decide)⟩

/-- C8 on the code: a fresh, zeroed non-root node whose sensor reference
points at its parent (node 100) resolves with return value 0 and
`polling_delay = 1000`, but without a `trips` subnode, or with trips none of
which has the type, `critical` and `alert` stay at 0; 85 and 80 are stored
only for a trip of the type that has no `temperature` cell. -/
theorem ofdata_defaults_missing_trip :
    nxp_tmu_ofdata_to_platdata (2 ^ 64 - 1) nxp_tmu_plat.zero
        ⟨0, 0, 0, 0, true, 0x30260000⟩ 100
        ⟨none, 0, ⟨100, 1, 0⟩, none, none⟩ =
      (0, ⟨0, 0, 1000, 0, false, 0x30260000⟩) ∧
    imx_sc_thermal_ofdata_to_platdata imx_sc_thermal_plat.zero 100
        ⟨none, 0, ⟨100, 1, 0⟩, none, none⟩ =
      (0, ⟨0, 0, 1000, 0, false⟩) ∧
    nxp_tmu_ofdata_to_platdata (2 ^ 64 - 1) nxp_tmu_plat.zero
        ⟨0, 0, 0, 0, true, 0x30260000⟩ 100
        ⟨none, 0, ⟨100, 1, 0⟩, none, some [⟨some "passive", some 70000⟩]⟩ =
      (0, ⟨0, 70000, 1000, 0, false, 0x30260000⟩) ∧
    imx_sc_thermal_ofdata_to_platdata imx_sc_thermal_plat.zero 100
        ⟨none, 0, ⟨100, 1, 0⟩, none, some [⟨some "critical", some 95000⟩]⟩ =
      (0, ⟨95000, 0, 1000, 0, false⟩) ∧
    nxp_tmu_ofdata_to_platdata (2 ^ 64 - 1) nxp_tmu_plat.zero
        ⟨0, 0, 0, 0, true, 0x30260000⟩ 100
        ⟨none, 0, ⟨100, 1, 0⟩, none,
          some [⟨some "passive", none⟩, ⟨some "critical", none⟩]⟩ =
      (0, ⟨85, 80, 1000, 0, false, 0x30260000⟩) := by
  decide

end Thermal
